import Mathlib

/-!
Verification of the pytinybeans client library (`pytinybeans/pytinybeans.py`).

The Python code is shallowly embedded: dictionaries received from the server
become structures whose fields are `Option`-valued (a `none` field models an
absent key, and reading it raises a `KeyError`), network I/O becomes explicit
oracle parameters (the server's responses) together with a trace of the
requests/effects the client issues, and Python exceptions become `Except`.
-/

/-- Python exceptions that the embedded code can raise.  `outOfFuel` is a
model artifact used to make the unbounded pagination `while` loop total; all
theorems supply enough fuel for it never to occur. -/
inductive Err where
  | keyError (key : String)
  | indexError
  | outOfFuel
  deriving DecidableEq, Repr

/-- `data["k"]` on an embedded dictionary: an absent key raises `KeyError`. -/
def getKey {α : Type} (v : Option α) (k : String) : Except Err α :=
  match v with
  | some x => Except.ok x
  | none => Except.error (Err.keyError k)

deriving instance DecidableEq for Except

/-- The raw server record a `TinybeansUser` is built from. -/
structure UserRecord where
  id : Option Nat
  emailAddress : Option String
  firstName : Option String
  lastName : Option String
  username : Option String
  deriving DecidableEq, Repr

/-- `TinybeansUser.__init__`. -/
structure TinybeansUser where
  id : Nat
  email_address : String
  first_name : String
  last_name : String
  username : String
  deriving DecidableEq, Repr

def TinybeansUser.init (data : UserRecord) : Except Err TinybeansUser := do
  let i ← getKey data.id "id"
  let e ← getKey data.emailAddress "emailAddress"
  let f ← getKey data.firstName "firstName"
  let l ← getKey data.lastName "lastName"
  let u ← getKey data.username "username"
  pure ⟨i, e, f, l, u⟩

example : TinybeansUser.init ⟨some 1, some "a@b", some "A", some "B", some "ab"⟩ =
    Except.ok ⟨1, "a@b", "A", "B", "ab"⟩ := by decide

/-- `data["type"]` of an emotion record, itself a mapping with a `label` key. -/
structure LabelRecord where
  label : Option String
  deriving DecidableEq, Repr

/-- The raw server record a `TinybeanEmotion` is built from. -/
structure EmotionRecord where
  id : Option Nat
  entryId : Option Nat
  userId : Option Nat
  type : Option LabelRecord
  deriving DecidableEq, Repr

/-- `TinybeanEmotion.__init__`. -/
structure TinybeanEmotion where
  id : Nat
  entry_id : Nat
  user_id : Nat
  type : String
  deriving DecidableEq, Repr

def TinybeanEmotion.init (data : EmotionRecord) : Except Err TinybeanEmotion := do
  let i ← getKey data.id "id"
  let e ← getKey data.entryId "entryId"
  let u ← getKey data.userId "userId"
  let t ← getKey data.type "type"
  let l ← getKey t.label "label"
  pure ⟨i, e, u, l⟩

/-- The raw server record a `TinybeanComment` is built from. -/
structure CommentRecord where
  id : Option Nat
  details : Option String
  user : Option UserRecord
  deriving DecidableEq, Repr

/-- `TinybeanComment.__init__`. -/
structure TinybeanComment where
  id : Nat
  text : String
  user : TinybeansUser
  deriving DecidableEq, Repr

def TinybeanComment.init (data : CommentRecord) : Except Err TinybeanComment := do
  let i ← getKey data.id "id"
  let d ← getKey data.details "details"
  let urec ← getKey data.user "user"
  let u ← TinybeansUser.init urec
  pure ⟨i, d, u⟩

/-- The `for … append` loops over `data["emotions"]` / `data["comments"]` in
`TinybeanEntry.__init__` run inside a `try … except KeyError: pass` block, so
elements appended before the first failing element are kept and the error is
swallowed. -/
def appendUntilKeyError {α β : Type} (f : α → Except Err β) : List α → List β
  | [] => []
  | x :: xs =>
    match f x with
    | Except.error _ => []
    | Except.ok y => y :: appendUntilKeyError f xs

/-- The raw server record a `TinybeanEntry` is built from.  Every key the code
reads is a field; `none` models an absent key.  `timestamp` is read by
`get_entries` directly from the raw record, not by `TinybeanEntry.__init__`. -/
structure EntryRecord where
  id : Option Nat
  uuid : Option String
  deleted : Option Bool
  attachmentType : Option String
  attachmentUrl_mp4 : Option String
  type : Option String
  latitude : Option Int
  longitude : Option Int
  caption : Option String
  blobs : Option String
  emotions : Option (List EmotionRecord)
  comments : Option (List CommentRecord)
  timestamp : Option Int
  deriving DecidableEq, Repr

/-- `TinybeanEntry.__init__` (the `_data` back-pointer is not modelled;
`blobs` is kept abstract as a string). -/
structure TinybeanEntry where
  id : Nat
  uuid : String
  deleted : Bool
  type : String
  video_url : Option String
  latitude : Option Int
  longitude : Option Int
  caption : String
  blobs : String
  emotions : List TinybeanEmotion
  comments : List TinybeanComment
  deriving DecidableEq, Repr

def TinybeanEntry.init (data : EntryRecord) : Except Err TinybeanEntry := do
  let i ← getKey data.id "id"
  let u ← getKey data.uuid "uuid"
  let d ← getKey data.deleted "deleted"
  -- `data.get("attachmentType") == "VIDEO"`: `.get` returns None when absent.
  let tv : String × Option String ←
    if data.attachmentType = some "VIDEO" then do
      let url ← getKey data.attachmentUrl_mp4 "attachmentUrl_mp4"
      pure ("VIDEO", some url)
    else do
      let t ← getKey data.type "type"
      pure (t, none)
  -- latitude and longitude share one `try … except KeyError` block: if either
  -- key is absent, both attributes end up None.
  let latlon : Option Int × Option Int :=
    match data.latitude, data.longitude with
    | some la, some lo => (some la, some lo)
    | _, _ => (none, none)
  let c ← getKey data.caption "caption"
  let b ← getKey data.blobs "blobs"
  let emotions : List TinybeanEmotion :=
    match data.emotions with
    | none => []
    | some rs => appendUntilKeyError TinybeanEmotion.init rs
  let comments : List TinybeanComment :=
    match data.comments with
    | none => []
    | some rs => appendUntilKeyError TinybeanComment.init rs
  pure ⟨i, u, d, tv.1, tv.2, latlon.1, latlon.2, c, b, emotions, comments⟩

/-- `entries.append(TinybeanEntry(entry))` over a page's `entries` list: a
`KeyError` raised by any element propagates out of `get_entries`. -/
def initEntries : List EntryRecord → Except Err (List TinybeanEntry)
  | [] => Except.ok []
  | r :: rs => do
    let e ← TinybeanEntry.init r
    let es ← initEntries rs
    pure (e :: es)

def IOS_CLIENT_ID : String := "13bcd503-2137-9085-a437-d9f2ac9281a1"

/-- `PyTinybeans.CLIENT_ID`. -/
def CLIENT_ID : String := IOS_CLIENT_ID

/-- `TinybeanChild`.  The back-reference to the owning `TinybeanJournal` is
flattened to the journal's id, the only part of it the client code reads
(`child.journal.id` in `get_entries`); the date of birth is kept as the raw
string. -/
structure TinybeanChild where
  id : Nat
  first_name : String
  last_name : String
  gender : String
  dob : String
  journal_id : Nat
  deriving DecidableEq, Repr

/-- The mutable fields of a `PyTinybeans` instance that `login` touches:
`_access_token` (initially `None`) and `user`. -/
structure ClientState where
  access_token : Option String
  user : Option TinybeansUser
  deriving DecidableEq, Repr

/-- A freshly constructed `PyTinybeans()`. -/
def initState : ClientState := ⟨none, none⟩

/-- `PyTinybeans.logged_in`: Python truthiness of `self._access_token`
(`None` and the empty string are falsy). -/
def ClientState.logged_in (s : ClientState) : Bool :=
  match s.access_token with
  | none => false
  | some t => t != ""

/-- The body of the server's response to `POST authenticate`, with the two
keys `login` reads. -/
structure AuthBody where
  accessToken : Option String
  user : Option UserRecord
  deriving DecidableEq, Repr

/-- A full authenticate response.  `login` never reads `statusCode`; it is
carried so that theorems can quantify over it. -/
structure AuthResponse where
  statusCode : Nat
  body : AuthBody
  deriving DecidableEq, Repr

/-- What one call to `PyTinybeans.login` did: how many `authenticate`
requests it issued, the client state it left behind, and whether it returned
normally or raised. -/
structure LoginResult where
  requests : Nat
  state : ClientState
  result : Except Err Unit
  deriving DecidableEq, Repr

/-- `PyTinybeans.login(username, password)`.  The username/password only feed
the request body, which the oracle `response` already answers, so they are not
parameters here.  Statement order matters: `self._access_token` is assigned
from `response.json()["accessToken"]` before `response.json()["user"]` is
read, so a `KeyError` on the user record leaves the token stored. -/
def login (s : ClientState) (response : AuthResponse) : LoginResult :=
  if s.logged_in then ⟨0, s, Except.ok ()⟩
  else
    match response.body.accessToken with
    | none => ⟨1, s, Except.error (Err.keyError "accessToken")⟩
    | some tok =>
      let s1 : ClientState := ⟨some tok, s.user⟩
      match response.body.user with
      | none => ⟨1, s1, Except.error (Err.keyError "user")⟩
      | some urec =>
        match TinybeansUser.init urec with
        | Except.error e => ⟨1, s1, Except.error e⟩
        | Except.ok usr => ⟨1, ⟨some tok, some usr⟩, Except.ok ()⟩

/-- One `GET journals/{id}/entries` request issued by `get_entries`, with the
query parameters the code sends. -/
structure FetchReq where
  path : String
  clientId : String
  fetchSize : Nat
  last : Int
  deriving DecidableEq, Repr

/-- The body of one page response, with the two keys `get_entries` reads. -/
structure PageResponse where
  entries : Option (List EntryRecord)
  numEntriesRemaining : Option Int
  deriving DecidableEq, Repr

/-- What one call to `get_entries` did: the page requests it issued, in
order, and its return value or the exception it raised. -/
structure GetEntriesOutcome where
  requests : List FetchReq
  result : Except Err (List TinybeanEntry)
  deriving DecidableEq, Repr

/-- The list comprehension on the `return` line of `get_entries`:
`[e for e in entries if not e.deleted and not get_deleted_entries]`. -/
def entriesFilter (get_deleted_entries : Bool) (entries : List TinybeanEntry) :
    List TinybeanEntry :=
  entries.filter (fun e => !e.deleted && !get_deleted_entries)

/-- `"journals/%s/entries" % child.journal.id`. -/
def journalPath (child : TinybeanChild) : String :=
  "journals/" ++ toString child.journal_id ++ "/entries"

/-- The `while response.json()["numEntriesRemaining"] > 0:` loop of
`get_entries`.  `server i` is the response the server gives to the `i`-th
page request (the pre-loop request is number 0); `resp` is the most recently
fetched response, `acc` the accumulated entries, `reqs` the requests issued
so far.  Inside the loop the cursor advance reads `["entries"][0]["timestamp"]`
of the previous response unguarded, while appending from the newly fetched
response is guarded by `if "entries" in response.json():`. -/
def getEntriesLoop (server : Nat → PageResponse) (jp : String)
    (get_deleted_entries : Bool) :
    Nat → Nat → PageResponse → List TinybeanEntry → List FetchReq →
    GetEntriesOutcome
  | 0, _, _, _, reqs => ⟨reqs, Except.error Err.outOfFuel⟩
  | fuel + 1, i, resp, acc, reqs =>
    match getKey resp.numEntriesRemaining "numEntriesRemaining" with
    | Except.error e => ⟨reqs, Except.error e⟩
    | Except.ok rem =>
      if 0 < rem then
        match getKey resp.entries "entries" with
        | Except.error e => ⟨reqs, Except.error e⟩
        | Except.ok recs =>
          match recs with
          | [] => ⟨reqs, Except.error Err.indexError⟩
          | first :: _ =>
            match getKey first.timestamp "timestamp" with
            | Except.error e => ⟨reqs, Except.error e⟩
            | Except.ok ts =>
              let req : FetchReq := ⟨jp, CLIENT_ID, 200, ts⟩
              let resp2 := server i
              match resp2.entries with
              | none =>
                getEntriesLoop server jp get_deleted_entries fuel (i + 1)
                  resp2 acc (reqs ++ [req])
              | some rs =>
                match initEntries rs with
                | Except.error e => ⟨reqs ++ [req], Except.error e⟩
                | Except.ok es =>
                  getEntriesLoop server jp get_deleted_entries fuel (i + 1)
                    resp2 (acc ++ es) (reqs ++ [req])
      else
        ⟨reqs, Except.ok (entriesFilter get_deleted_entries acc)⟩

/-- `PyTinybeans.get_entries(child, last, get_deleted_entries)`.
`nowSeconds` stands for `time.mktime(datetime.datetime.utcnow().timetuple())`,
the current wall-clock time in whole epoch seconds (the timezone handling of
`mktime` and the no-op `timedelta(days=0)` subtraction are elided); `fuel`
bounds the otherwise unbounded `while` loop.  The first page's `entries` key
is read unguarded, and `numEntriesRemaining` of each response is read by the
`print` / `while` condition. -/
def get_entries (server : Nat → PageResponse) (fuel : Nat)
    (child : TinybeanChild) (lastArg : Option Int)
    (get_deleted_entries : Bool) (nowSeconds : Int) : GetEntriesOutcome :=
  let last : Int :=
    match lastArg with
    | some l => l
    | none => nowSeconds * 1000
  let jp := journalPath child
  let req0 : FetchReq := ⟨jp, CLIENT_ID, 200, last⟩
  let resp0 := server 0
  match getKey resp0.entries "entries" with
  | Except.error e => ⟨[req0], Except.error e⟩
  | Except.ok recs =>
    match initEntries recs with
    | Except.error e => ⟨[req0], Except.error e⟩
    | Except.ok es =>
      getEntriesLoop server jp get_deleted_entries fuel 1 resp0 es [req0]

/-- `MediaItem` (a dataclass); the local file is kept as its path string. -/
structure MediaItem where
  day : Int
  month : Int
  year : Int
  file : String
  children : List TinybeanChild
  deriving DecidableEq, Repr

/-- The JSON body `upload_media` POSTs to register the uploaded file as a new
journal entry. -/
structure RegistrationBody where
  day : Int
  month : Int
  year : Int
  children : List Nat
  caption : String
  remoteFileName : String
  deriving DecidableEq, Repr

/-- The outward-visible actions the upload/delete code performs, in
order. `acquireScope` is one entry into the `s3_client()` context manager
(a Cognito credential exchange yielding a scoped S3 client). -/
inductive Effect where
  | acquireScope
  | s3Upload (bucket : String) (key : String)
  | logError (msg : String)
  | apiPost (path : String) (body : RegistrationBody)
  | apiDelete (path : String)
  deriving DecidableEq, Repr

/-- `mediaItem.file.as_posix().split(".")[-1]`. -/
def fileSuffix (file : String) : String :=
  match (file.splitOn ".").reverse with
  | [] => ""
  | s :: _ => s

/-- `destinationFileName = f"{id}.{suffix}"` where `id` is the freshly
generated upper-cased UUID (supplied here as the oracle `genId`). -/
def destinationFileName (genId : String) (file : String) : String :=
  genId ++ "." ++ fileSuffix file

def UPLOAD_BUCKET : String := "tinybeans-remote-upload-prod"

/-- The registration body built by `upload_media`: calendar placement, the
ids of the item's target children, an empty caption and the generated remote
file name. -/
def registrationBody (item : MediaItem) (key : String) : RegistrationBody :=
  ⟨item.day, item.month, item.year, item.children.map (fun c => c.id), "", key⟩

/-- The `try: s3.upload_file(...) except Exception as err: logging.error(err)`
block: the upload is attempted and a failure is logged and swallowed.
`uploadOutcome` is the oracle for whether `upload_file` raises. -/
def tryUpload (uploadOutcome : Except String Unit) (key : String) :
    List Effect :=
  match uploadOutcome with
  | Except.ok _ => [Effect.s3Upload UPLOAD_BUCKET key]
  | Except.error msg => [Effect.s3Upload UPLOAD_BUCKET key, Effect.logError msg]

/-- `PyTinybeans.upload_media(mediaItem, s3Client, index, total_items)`.
`clientProvided` is whether `s3Client is not None`; when it is `false` the
method enters `s3_client()` itself, and `acquireOutcome` is the oracle for
that acquisition (an exception there propagates before any upload).
`index`/`total_items` only feed progress logging and are elided, as are the
progress callback and the response logging. -/
def upload_media (item : MediaItem) (clientProvided : Bool)
    (acquireOutcome : Except String Unit) (uploadOutcome : Except String Unit)
    (genId : String) : List Effect × Except String Unit :=
  let key := destinationFileName genId item.file
  let attempt : List Effect × Except String Unit :=
    if clientProvided then
      (tryUpload uploadOutcome key, Except.ok ())
    else
      match acquireOutcome with
      | Except.error msg => ([Effect.acquireScope], Except.error msg)
      | Except.ok _ =>
        (Effect.acquireScope :: tryUpload uploadOutcome key, Except.ok ())
  match attempt.2 with
  | Except.error msg => (attempt.1, Except.error msg)
  | Except.ok _ =>
    (attempt.1 ++ [Effect.apiPost "journals/1572712/entries"
      (registrationBody item key)], Except.ok ())

/-- The `for index, item in enumerate(mediaItems): self.upload_media(item, s3,
index, len(mediaItems))` loop inside `upload_medias`: every item is processed
with the already-acquired shared client.  `uploadOutcomes i` / `genIds i` are
the oracles for the `i`-th item. -/
def uploadMediasLoop (uploadOutcomes : Nat → Except String Unit)
    (genIds : Nat → String) : List MediaItem → Nat → List Effect
  | [], _ => []
  | item :: rest, i =>
    (upload_media item true (Except.ok ()) (uploadOutcomes i) (genIds i)).1
      ++ uploadMediasLoop uploadOutcomes genIds rest (i + 1)

/-- `PyTinybeans.upload_medias(mediaItems)`: one `with s3_client() as s3:`
scope around a sequential per-item loop.  A failing acquisition raises before
any item is processed. -/
def upload_medias (items : List MediaItem)
    (acquireOutcome : Except String Unit)
    (uploadOutcomes : Nat → Except String Unit) (genIds : Nat → String) :
    List Effect × Except String Unit :=
  match acquireOutcome with
  | Except.error msg => ([Effect.acquireScope], Except.error msg)
  | Except.ok _ =>
    (Effect.acquireScope :: uploadMediasLoop uploadOutcomes genIds items 0,
     Except.ok ())

/-- `PyTinybeans.delete(entry)`: a DELETE against the hard-coded journal path
(the log line is elided). -/
def delete (entry : TinybeanEntry) : List Effect :=
  [Effect.apiDelete ("journals/1572712/entries/" ++ toString entry.id)]

/-- Number of registration POSTs in an effect trace. -/
def countPosts (effs : List Effect) : Nat :=
  (effs.filter (fun e =>
    match e with
    | Effect.apiPost _ _ => true
    | _ => false)).length

/-- Number of object-store uploads in an effect trace. -/
def countUploads (effs : List Effect) : Nat :=
  (effs.filter (fun e =>
    match e with
    | Effect.s3Upload _ _ => true
    | _ => false)).length

/-- Number of credential-scope acquisitions in an effect trace. -/
def countAcquires (effs : List Effect) : Nat :=
  (effs.filter (fun e =>
    match e with
    | Effect.acquireScope => true
    | _ => false)).length

/-- The paths of the registration POSTs in an effect trace. -/
def postPaths (effs : List Effect) : List String :=
  effs.filterMap (fun e =>
    match e with
    | Effect.apiPost p _ => some p
    | _ => none)

/-- The upload and registration events of a trace, log lines and scope
acquisition dropped. -/
def uploadPostEvents (effs : List Effect) : List Effect :=
  effs.filter (fun e =>
    match e with
    | Effect.s3Upload _ _ => true
    | Effect.apiPost _ _ => true
    | _ => false)

/-- Stated from the claim for comparison with `upload_medias`: item `i` is
uploaded and then registered, fully before item `i + 1` is touched. -/
def specItemEvents (genIds : Nat → String) : Nat → List MediaItem → List Effect
  | _, [] => []
  | i, item :: rest =>
    Effect.s3Upload UPLOAD_BUCKET (destinationFileName (genIds i) item.file)
      :: Effect.apiPost "journals/1572712/entries"
          (registrationBody item (destinationFileName (genIds i) item.file))
      :: specItemEvents genIds (i + 1) rest

/-! ### Concrete sample data used by counterexamples and witnesses -/

def sampleChild : TinybeanChild := ⟨7, "A", "B", "FEMALE", "2019-05-01", 42⟩

def sampleRecord (deleted : Bool) (ts : Int) : EntryRecord :=
  ⟨some 1, some "u1", some deleted, none, none, some "TEXT", none, none,
   some "", some "", none, none, some ts⟩

def sampleEntry (deleted : Bool) : TinybeanEntry :=
  ⟨1, "u1", deleted, "TEXT", none, none, none, "", "", [], []⟩

def sampleItem : MediaItem := ⟨5, 6, 2021, "pic.jpg", [sampleChild]⟩

/-- A server whose single page holds one live and one deleted entry and
reports nothing remaining. -/
def onePageServer : Nat → PageResponse :=
  fun _ => ⟨some [sampleRecord false 5, sampleRecord true 6], some 0⟩

/-- A server whose first page is well-formed and reports 10 entries
remaining, but whose second page omits the `entries` key while still
reporting 5 remaining. -/
def malformedMidServer : Nat → PageResponse :=
  fun i => if i = 0 then ⟨some [sampleRecord false 10], some 10⟩
           else ⟨none, some 5⟩

/-- A server returning remaining-counts 400, 200, 0 over three pages. -/
def threePageServer : Nat → PageResponse :=
  fun i =>
    if i = 0 then ⟨some [sampleRecord false 10], some 400⟩
    else if i = 1 then ⟨some [sampleRecord false 20], some 200⟩
    else ⟨some [sampleRecord false 30], some 0⟩

/-! ### Helper lemmas about the pagination loop -/

/-- The loop only ever appends to the request list it is given. -/
theorem getEntriesLoop_requests_extend (server : Nat → PageResponse)
    (jp : String) (flag : Bool) :
    ∀ (fuel i : Nat) (resp : PageResponse) (acc : List TinybeanEntry)
      (reqs : List FetchReq),
      ∃ suffix,
        (getEntriesLoop server jp flag fuel i resp acc reqs).requests =
          reqs ++ suffix := by
  intro fuel
  induction fuel with
  | zero =>
    intro i resp acc reqs
    exact ⟨[], by simp [getEntriesLoop]⟩
  | succ n ih =>
    intro i resp acc reqs
    unfold getEntriesLoop
    split
    · exact ⟨[], by simp⟩
    · split
      · split
        · exact ⟨[], by simp⟩
        · split
          · exact ⟨[], by simp⟩
          · split
            · exact ⟨[], by simp⟩
            · dsimp only
              split
              · obtain ⟨s, hs⟩ := ih (i + 1) _ _ _
                exact ⟨_, by rw [hs, List.append_assoc]⟩
              · split
                · exact ⟨_, rfl⟩
                · obtain ⟨s, hs⟩ := ih (i + 1) _ _ _
                  exact ⟨_, by rw [hs, List.append_assoc]⟩
      · exact ⟨[], by simp⟩

/-- When the current response reports a non-positive remaining count, the
loop stops: no further request is issued and the accumulated entries are
returned through the final filter. -/
theorem getEntriesLoop_stop (server : Nat → PageResponse) (jp : String)
    (flag : Bool) (fuel i : Nat) (resp : PageResponse)
    (acc : List TinybeanEntry) (reqs : List FetchReq) (r : Int)
    (hrem : resp.numEntriesRemaining = some r) (hr : r ≤ 0) :
    getEntriesLoop server jp flag (fuel + 1) i resp acc reqs =
      ⟨reqs, Except.ok (entriesFilter flag acc)⟩ := by
  unfold getEntriesLoop
  simp [getKey, hrem, not_lt.mpr hr]

/-- One full loop iteration: positive remaining count, cursor taken from the
first entry of the current response, next page fetched and appended. -/
theorem getEntriesLoop_step (server : Nat → PageResponse) (jp : String)
    (flag : Bool) (fuel i : Nat) (resp : PageResponse)
    (acc : List TinybeanEntry) (reqs : List FetchReq) (r : Int)
    (rec : EntryRecord) (rest : List EntryRecord) (ts : Int)
    (rs : List EntryRecord) (es : List TinybeanEntry)
    (hrem : resp.numEntriesRemaining = some r) (hr : 0 < r)
    (hent : resp.entries = some (rec :: rest)) (hts : rec.timestamp = some ts)
    (hserv : (server i).entries = some rs)
    (hinit : initEntries rs = Except.ok es) :
    getEntriesLoop server jp flag (fuel + 1) i resp acc reqs =
      getEntriesLoop server jp flag fuel (i + 1) (server i) (acc ++ es)
        (reqs ++ [⟨jp, CLIENT_ID, 200, ts⟩]) := by
  conv_lhs => unfold getEntriesLoop
  simp [getKey, hrem, hr, hent, hts, hserv, hinit]

/-- One loop iteration whose freshly fetched page omits the `entries` key:
the appending is skipped but the fetch still happened. -/
theorem getEntriesLoop_skipStep (server : Nat → PageResponse) (jp : String)
    (flag : Bool) (fuel i : Nat) (resp : PageResponse)
    (acc : List TinybeanEntry) (reqs : List FetchReq) (r : Int)
    (rec : EntryRecord) (rest : List EntryRecord) (ts : Int)
    (hrem : resp.numEntriesRemaining = some r) (hr : 0 < r)
    (hent : resp.entries = some (rec :: rest)) (hts : rec.timestamp = some ts)
    (hserv : (server i).entries = none) :
    getEntriesLoop server jp flag (fuel + 1) i resp acc reqs =
      getEntriesLoop server jp flag fuel (i + 1) (server i) acc
        (reqs ++ [⟨jp, CLIENT_ID, 200, ts⟩]) := by
  conv_lhs => unfold getEntriesLoop
  simp [getKey, hrem, hr, hent, hts, hserv]

/-- When the current response omits the `entries` key but reports a positive
remaining count, the cursor advance raises `KeyError("entries")`. -/
theorem getEntriesLoop_missingEntriesFatal (server : Nat → PageResponse)
    (jp : String) (flag : Bool) (fuel i : Nat) (resp : PageResponse)
    (acc : List TinybeanEntry) (reqs : List FetchReq) (r : Int)
    (hrem : resp.numEntriesRemaining = some r) (hr : 0 < r)
    (hent : resp.entries = none) :
    getEntriesLoop server jp flag (fuel + 1) i resp acc reqs =
      ⟨reqs, Except.error (Err.keyError "entries")⟩ := by
  unfold getEntriesLoop
  simp [getKey, hrem, hr, hent]

/-- A server whose first page reports more entries remaining but whose
second page omits `entries` while reporting nothing remaining. -/
def malformedEndServer : Nat → PageResponse :=
  fun i => if i = 0 then ⟨some [sampleRecord false 10], some 10⟩
           else ⟨none, some 0⟩

/-- Unfolding of `get_entries` up to the entry of the pagination loop, when
the first page is well-formed. -/
theorem get_entries_firstPage (server : Nat → PageResponse) (fuel : Nat)
    (child : TinybeanChild) (lastArg : Option Int) (flag : Bool)
    (nowSeconds : Int) (recs : List EntryRecord) (es : List TinybeanEntry)
    (h0 : (server 0).entries = some recs)
    (hinit : initEntries recs = Except.ok es) :
    get_entries server fuel child lastArg flag nowSeconds =
      getEntriesLoop server (journalPath child) flag fuel 1 (server 0) es
        [⟨journalPath child, CLIENT_ID, 200,
          match lastArg with
          | some l => l
          | none => nowSeconds * 1000⟩] := by
  unfold get_entries
  simp [getKey, h0, hinit]



/-! ### Claim theorems -/

/-- C1: the return filter of `get_entries` is
`not e.deleted and not get_deleted_entries`, so with `get_deleted_entries`
set the call returns the empty list even for a page holding a live and a
deleted entry — contradicting the claimed
`keep iff (not deleted) or get_deleted_entries` behavior — while with the
flag clear exactly the non-deleted entries come back. -/
theorem claim_C1_filter_drops_everything_when_flag_set :
    (get_entries onePageServer 1 sampleChild none true 1000).result =
      Except.ok [] ∧
    (get_entries onePageServer 1 sampleChild none false 1000).result =
      Except.ok [sampleEntry false] := by
  exact ⟨by decide, by decide⟩

/-- C7: when `get_entries` is called with no cursor, the first page request
carries `last = nowSeconds * 1000`, the current wall-clock time as a
millisecond epoch timestamp. -/
theorem claim_C7_default_cursor_is_now_in_millis (server : Nat → PageResponse)
    (fuel : Nat) (child : TinybeanChild) (flag : Bool) (nowSeconds : Int) :
    (get_entries server fuel child none flag nowSeconds).requests.head? =
      some ⟨journalPath child, CLIENT_ID, 200, nowSeconds * 1000⟩ := by
  unfold get_entries
  dsimp only
  split
  · rfl
  · split
    · rfl
    · obtain ⟨s, hs⟩ :=
        getEntriesLoop_requests_extend server (journalPath child) flag fuel 1
          (server 0) _ _
      rw [hs]
      rfl

/-- C2 counterexample: against a server whose second page omits the
`entries` key while reporting 5 entries remaining, `get_entries` raises
`KeyError("entries")` instead of treating the page as empty and carrying
on — the missing key is fatal, refuting the claim as stated. -/
theorem claim_C2_counterexample :
    (get_entries malformedMidServer 5 sampleChild (some 100) false 0).result =
      Except.error (Err.keyError "entries") := by decide

/-- C2 (amended): a within-loop page response that omits `entries` does skip
appending, and when it reports a non-positive remaining count the loop
terminates normally without raising; but when it reports a positive
remaining count the next iteration's cursor advance raises
`KeyError("entries")`, and the pre-loop first page is entirely unguarded, so
a missing `entries` key there raises at once. -/
theorem claim_C2_missing_entries_amended (server : Nat → PageResponse)
    (jp : String) (flag : Bool) (fuel i : Nat) (resp : PageResponse)
    (acc : List TinybeanEntry) (reqs : List FetchReq) (r rPrev ts : Int)
    (rec : EntryRecord) (rest : List EntryRecord) (child : TinybeanChild)
    (lastV nowS : Int) :
    (resp.entries = none → resp.numEntriesRemaining = some r →
      (r ≤ 0 →
        getEntriesLoop server jp flag (fuel + 1) i resp acc reqs =
          ⟨reqs, Except.ok (entriesFilter flag acc)⟩) ∧
      (0 < r →
        (getEntriesLoop server jp flag (fuel + 1) i resp acc reqs).result =
          Except.error (Err.keyError "entries"))) ∧
    (resp.numEntriesRemaining = some rPrev → 0 < rPrev →
      resp.entries = some (rec :: rest) → rec.timestamp = some ts →
      server i = ⟨none, some 0⟩ →
      getEntriesLoop server jp flag (fuel + 2) i resp acc reqs =
        ⟨reqs ++ [⟨jp, CLIENT_ID, 200, ts⟩],
         Except.ok (entriesFilter flag acc)⟩) ∧
    ((server 0).entries = none →
      get_entries server fuel child (some lastV) flag nowS =
        ⟨[⟨journalPath child, CLIENT_ID, 200, lastV⟩],
         Except.error (Err.keyError "entries")⟩) := by
  refine ⟨fun hent hrem => ⟨fun hle => ?_, fun hpos => ?_⟩,
    fun hrem hpos hent hts hserv => ?_, fun h0 => ?_⟩
  · exact getEntriesLoop_stop server jp flag fuel i resp acc reqs r hrem hle
  · rw [getEntriesLoop_missingEntriesFatal server jp flag fuel i resp acc reqs
      r hrem hpos hent]
  · rw [getEntriesLoop_skipStep server jp flag (fuel + 1) i resp acc reqs
      rPrev rec rest ts hrem hpos hent hts (by rw [hserv])]
    exact getEntriesLoop_stop server jp flag fuel (i + 1) (server i) acc _ 0
      (by rw [hserv]) le_rfl
  · unfold get_entries
    simp [getKey, h0]

/-- Witness for `claim_C2_missing_entries_amended`: the skip-then-terminate
branch evaluated against the concrete `malformedEndServer`. -/
theorem claim_C2_missing_entries_amended_witness :
    malformedEndServer 1 = ⟨none, some 0⟩ ∧
    getEntriesLoop malformedEndServer "journals/42/entries" false 2 1
        ⟨some [sampleRecord false 10], some 10⟩ [sampleEntry false] [] =
      ⟨[⟨"journals/42/entries", CLIENT_ID, 200, 10⟩],
       Except.ok [sampleEntry false]⟩ :=
  ⟨rfl,
    (claim_C2_missing_entries_amended malformedEndServer "journals/42/entries"
        false 0 1 ⟨some [sampleRecord false 10], some 10⟩ [sampleEntry false]
        [] 0 10 10 (sampleRecord false 10) [] sampleChild 0 0).2.1
      rfl (by decide) rfl rfl rfl⟩

/-- C3: against server pages reporting remaining-counts 400, 200, 0, exactly
three page fetches occur; the second and third requests carry as cursor the
timestamp of the first entry of the first and second fetched pages; with no
deleted entries and the flag clear the result is the three pages' entries
concatenated in fetch order.  In general, a response reporting remaining
count 0 stops the loop with no further fetch. -/
theorem claim_C3_three_page_pagination (server : Nat → PageResponse)
    (child : TinybeanChild) (fuel : Nat) (lastV t0 t1 : Int)
    (r0 r1 r2 rest0 rest1 : List EntryRecord) (rec0 rec1 : EntryRecord)
    (e0 e1 e2 : List TinybeanEntry) :
    (server 0 = ⟨some r0, some 400⟩ → server 1 = ⟨some r1, some 200⟩ →
     server 2 = ⟨some r2, some 0⟩ →
     r0 = rec0 :: rest0 → rec0.timestamp = some t0 →
     r1 = rec1 :: rest1 → rec1.timestamp = some t1 →
     initEntries r0 = Except.ok e0 → initEntries r1 = Except.ok e1 →
     initEntries r2 = Except.ok e2 →
     (∀ e ∈ e0 ++ e1 ++ e2, e.deleted = false) →
     3 ≤ fuel →
     get_entries server fuel child (some lastV) false 0 =
       ⟨[⟨journalPath child, CLIENT_ID, 200, lastV⟩,
         ⟨journalPath child, CLIENT_ID, 200, t0⟩,
         ⟨journalPath child, CLIENT_ID, 200, t1⟩],
        Except.ok (e0 ++ e1 ++ e2)⟩) ∧
    (∀ (g i : Nat) (resp : PageResponse) (acc : List TinybeanEntry)
       (reqs : List FetchReq) (flag : Bool),
       resp.numEntriesRemaining = some 0 →
       getEntriesLoop server (journalPath child) flag (g + 1) i resp acc
           reqs =
         ⟨reqs, Except.ok (entriesFilter flag acc)⟩) := by
  constructor
  · intro h0 h1 h2 hr0 ht0 hr1 ht1 hi0 hi1 hi2 hdel hfuel
    obtain ⟨k, rfl⟩ : ∃ k, fuel = k + 3 := ⟨fuel - 3, by omega⟩
    rw [get_entries_firstPage server (k + 3) child (some lastV) false 0 r0 e0
      (by rw [h0]) hi0]
    rw [show k + 3 = (k + 2) + 1 from rfl]
    rw [getEntriesLoop_step server (journalPath child) false (k + 2) 1
      (server 0) e0 _ 400 rec0 rest0 t0 r1 e1 (by rw [h0]) (by decide)
      (by rw [h0, hr0]) ht0 (by rw [h1]) hi1]
    rw [show k + 2 = (k + 1) + 1 from rfl]
    rw [getEntriesLoop_step server (journalPath child) false (k + 1) (1 + 1)
      (server 1) (e0 ++ e1) _ 200 rec1 rest1 t1 r2 e2
      (show (server 1).numEntriesRemaining = some 200 by rw [h1])
      (by decide)
      (show (server 1).entries = some (rec1 :: rest1) by rw [h1, hr1]) ht1
      (show (server 2).entries = some r2 by rw [h2]) hi2]
    rw [getEntriesLoop_stop server (journalPath child) false k (1 + 1 + 1)
      (server (1 + 1)) ((e0 ++ e1) ++ e2) _ 0
      (show (server 2).numEntriesRemaining = some 0 by rw [h2]) le_rfl]
    have hfil : entriesFilter false ((e0 ++ e1) ++ e2) = (e0 ++ e1) ++ e2 := by
      refine List.filter_eq_self.mpr fun a ha => ?_
      have hd : a.deleted = false :=
        hdel a (by simpa [List.append_assoc] using ha)
      simp [hd]
    rw [hfil]
    simp [List.append_assoc]
  · intro g i resp acc reqs flag hrem
    exact getEntriesLoop_stop server (journalPath child) flag g i resp acc
      reqs 0 hrem le_rfl

/-- Witness for `claim_C3_three_page_pagination`: the three-page part
evaluated against the concrete `threePageServer`. -/
theorem claim_C3_three_page_pagination_witness :
    threePageServer 0 = ⟨some [sampleRecord false 10], some 400⟩ ∧
    threePageServer 2 = ⟨some [sampleRecord false 30], some 0⟩ ∧
    get_entries threePageServer 5 sampleChild (some 100) false 0 =
      ⟨[⟨journalPath sampleChild, CLIENT_ID, 200, 100⟩,
        ⟨journalPath sampleChild, CLIENT_ID, 200, 10⟩,
        ⟨journalPath sampleChild, CLIENT_ID, 200, 20⟩],
       Except.ok [sampleEntry false, sampleEntry false, sampleEntry false]⟩ :=
  ⟨rfl, rfl,
    (claim_C3_three_page_pagination threePageServer sampleChild 5 100 10 20
        [sampleRecord false 10] [sampleRecord false 20] [sampleRecord false 30]
        [] [] (sampleRecord false 10) (sampleRecord false 20)
        [sampleEntry false] [sampleEntry false] [sampleEntry false]).1
      rfl rfl rfl rfl rfl rfl rfl (by decide) (by decide) (by decide)
      (by decide) (by decide)⟩

/-- When the upload is attempted at all — a caller-supplied client, or a
successful scope acquisition — `upload_media` runs to the registration POST
and returns normally, whatever the upload outcome. -/
theorem upload_media_eq_of_attempted (item : MediaItem) (cp : Bool)
    (acq upl : Except String Unit) (genId : String)
    (h : cp = true ∨ acq = Except.ok ()) :
    upload_media item cp acq upl genId =
      ((if cp then [] else [Effect.acquireScope])
        ++ tryUpload upl (destinationFileName genId item.file)
        ++ [Effect.apiPost "journals/1572712/entries"
            (registrationBody item (destinationFileName genId item.file))],
       Except.ok ()) := by
  cases cp with
  | true => simp [upload_media]
  | false =>
    have ha : acq = Except.ok () := by
      rcases h with h | h
      · exact absurd h (by simp)
      · exact h
    subst ha
    simp [upload_media]

/-- C4: whenever the upload is attempted (a client was supplied or the scope
acquisition succeeded), `upload_media` issues exactly one registration POST
and returns normally, even when the object-store upload raises; the upload
error is only logged, never re-raised. -/
theorem claim_C4_always_one_registration_post (item : MediaItem)
    (clientProvided : Bool) (acq upl : Except String Unit) (genId : String)
    (h : clientProvided = true ∨ acq = Except.ok ()) :
    countPosts (upload_media item clientProvided acq upl genId).1 = 1 ∧
    (upload_media item clientProvided acq upl genId).2 = Except.ok () ∧
    ∀ msg, upl = Except.error msg →
      Effect.logError msg ∈
        (upload_media item clientProvided acq upl genId).1 := by
  rw [upload_media_eq_of_attempted item clientProvided acq upl genId h]
  refine ⟨?_, rfl, ?_⟩
  · cases clientProvided <;> cases upl <;> simp [countPosts, tryUpload]
  · intro msg hmsg
    subst hmsg
    simp [tryUpload]

/-- Witness for `claim_C4_always_one_registration_post`: one item, client
supplied, upload raising. -/
theorem claim_C4_always_one_registration_post_witness :
    (true = true ∨ (Except.ok () : Except String Unit) = Except.ok ()) ∧
    countPosts (upload_media sampleItem true (Except.ok ())
      (Except.error "boom") "ID").1 = 1 ∧
    (upload_media sampleItem true (Except.ok ())
      (Except.error "boom") "ID").2 = Except.ok () :=
  ⟨Or.inl rfl,
    (claim_C4_always_one_registration_post sampleItem true (Except.ok ())
      (Except.error "boom") "ID" (Or.inl rfl)).1,
    (claim_C4_always_one_registration_post sampleItem true (Except.ok ())
      (Except.error "boom") "ID" (Or.inl rfl)).2.1⟩

/-- The per-item loop of `upload_medias` produces, for item `i`, its upload
followed by its registration POST, items strictly in input order. -/
theorem uploadMediasLoop_events (ups : Nat → Except String Unit)
    (gens : Nat → String) :
    ∀ (items : List MediaItem) (i : Nat),
      uploadPostEvents (uploadMediasLoop ups gens items i) =
        specItemEvents gens i items := by
  intro items
  induction items with
  | nil => intro i; rfl
  | cons item rest ih =>
    intro i
    rw [uploadMediasLoop, uploadPostEvents, List.filter_append,
      upload_media_eq_of_attempted item true (Except.ok ()) (ups i) (gens i)
        (Or.inl rfl)]
    have hout := ih (i + 1)
    rw [uploadPostEvents] at hout
    rw [hout, specItemEvents]
    cases ups i <;> simp [tryUpload, uploadPostEvents]

/-- Counting uploads, posts and acquisitions in the per-item loop. -/
theorem uploadMediasLoop_counts (ups : Nat → Except String Unit)
    (gens : Nat → String) :
    ∀ (items : List MediaItem) (i : Nat),
      countUploads (uploadMediasLoop ups gens items i) = items.length ∧
      countPosts (uploadMediasLoop ups gens items i) = items.length ∧
      countAcquires (uploadMediasLoop ups gens items i) = 0 := by
  intro items
  induction items with
  | nil => intro i; exact ⟨rfl, rfl, rfl⟩
  | cons item rest ih =>
    intro i
    obtain ⟨h1, h2, h3⟩ := ih (i + 1)
    rw [uploadMediasLoop,
      upload_media_eq_of_attempted item true (Except.ok ()) (ups i) (gens i)
        (Or.inl rfl)]
    refine ⟨?_, ?_, ?_⟩ <;>
      cases ups i <;>
        simp [countUploads, countPosts, countAcquires, tryUpload,
          List.filter_append] <;>
        simp [countUploads, countPosts, countAcquires] at h1 h2 h3 <;>
        first
          | omega
          | assumption

/-- C5: `upload_medias` over `N` items acquires exactly one credential scope
and performs `N` uploads and `N` registration POSTs, each item uploaded and
then registered strictly before the next item is touched, in input order;
when the scope acquisition fails, nothing is uploaded and no POST is
issued. -/
theorem claim_C5_batch_upload (items : List MediaItem)
    (acq : Except String Unit) (ups : Nat → Except String Unit)
    (gens : Nat → String) :
    (acq = Except.ok () →
      countAcquires (upload_medias items acq ups gens).1 = 1 ∧
      countUploads (upload_medias items acq ups gens).1 = items.length ∧
      countPosts (upload_medias items acq ups gens).1 = items.length ∧
      uploadPostEvents (upload_medias items acq ups gens).1 =
        specItemEvents gens 0 items ∧
      (upload_medias items acq ups gens).2 = Except.ok ()) ∧
    (∀ msg, acq = Except.error msg →
      countUploads (upload_medias items acq ups gens).1 = 0 ∧
      countPosts (upload_medias items acq ups gens).1 = 0 ∧
      (upload_medias items acq ups gens).2 = Except.error msg) := by
  constructor
  · intro ha
    subst ha
    obtain ⟨h1, h2, h3⟩ := uploadMediasLoop_counts ups gens items 0
    have hev := uploadMediasLoop_events ups gens items 0
    have hshape : upload_medias items (Except.ok ()) ups gens =
        (Effect.acquireScope :: uploadMediasLoop ups gens items 0,
         Except.ok ()) := rfl
    rw [hshape]
    refine ⟨?_, ?_, ?_, ?_, rfl⟩
    · simpa [countAcquires] using h3
    · simpa [countUploads] using h1
    · simpa [countPosts] using h2
    · simpa [uploadPostEvents] using hev
  · intro msg ha
    subst ha
    exact ⟨rfl, rfl, rfl⟩

/-- Witness for `claim_C5_batch_upload`: one item under a successful
acquisition. -/
theorem claim_C5_batch_upload_witness :
    (Except.ok () : Except String Unit) = Except.ok () ∧
    countAcquires (upload_medias [sampleItem] (Except.ok ())
      (fun _ => Except.ok ()) (fun _ => "ID")).1 = 1 ∧
    countPosts (upload_medias [sampleItem] (Except.ok ())
      (fun _ => Except.ok ()) (fun _ => "ID")).1 = 1 :=
  ⟨rfl,
    ((claim_C5_batch_upload [sampleItem] (Except.ok ())
      (fun _ => Except.ok ()) (fun _ => "ID")).1 rfl).1,
    ((claim_C5_batch_upload [sampleItem] (Except.ok ())
      (fun _ => Except.ok ()) (fun _ => "ID")).1 rfl).2.2.1⟩

/-- C9: the DELETE issued by `delete` and every registration POST issued by
`upload_media` target the hard-coded journal id 1572712 in the URL path, for
every entry and every media item (whatever the journal ids of the item's
children). -/
theorem claim_C9_hardcoded_journal_id (entry : TinybeanEntry)
    (item : MediaItem) (cp : Bool) (acq upl : Except String Unit)
    (genId : String) :
    delete entry =
      [Effect.apiDelete ("journals/1572712/entries/" ++ toString entry.id)] ∧
    (postPaths (upload_media item cp acq upl genId).1).all
      (fun p => p == "journals/1572712/entries") = true := by
  refine ⟨rfl, ?_⟩
  cases cp <;> rcases acq with msg | u <;> rcases upl with msg2 | u2 <;>
    simp [upload_media, tryUpload, postPaths]

/-- The server's response to the one successful authenticate request used in
counterexamples and witnesses: a failure status code but a well-formed
body. -/
def status401Response : AuthResponse :=
  ⟨401, ⟨some "tok", some ⟨some 1, some "a@b", some "A", some "B",
    some "ab"⟩⟩⟩

/-- An authenticate response whose body carries the access token but no
user record. -/
def tokenOnlyResponse : AuthResponse := ⟨200, ⟨some "tok", none⟩⟩

/-- C6 counterexample: for a response whose body carries `accessToken` but
no `user` field, `login` does raise (`KeyError("user")`) — but the client
ends up holding the access token from that very call, refuting the claim
that a failing authenticate never leaves a token behind. -/
theorem claim_C6_counterexample :
    (login initState tokenOnlyResponse).result =
      Except.error (Err.keyError "user") ∧
    (login initState tokenOnlyResponse).state.access_token = some "tok" := by
  exact ⟨by decide, by decide⟩

/-- C6 (amended): an unauthenticated `login` issues exactly one authenticate
request and never retries; a body missing `accessToken` raises and leaves
the state untouched; once the body carries `accessToken`, the token is
stored even if reading the `user` field subsequently raises; the HTTP status
code is never inspected, so a well-formed body is accepted whatever the
status. -/
theorem claim_C6_login_failure_amended (s : ClientState) (r : AuthResponse)
    (h : s.logged_in = false) :
    (login s r).requests = 1 ∧
    (r.body.accessToken = none →
      (login s r).result = Except.error (Err.keyError "accessToken") ∧
      (login s r).state = s) ∧
    (∀ tok, r.body.accessToken = some tok →
      (login s r).state.access_token = some tok ∧
      (r.body.user = none →
        (login s r).result = Except.error (Err.keyError "user")) ∧
      (∀ urec usr, r.body.user = some urec →
        TinybeansUser.init urec = Except.ok usr →
        (login s r).result = Except.ok () ∧
        (login s r).state = ⟨some tok, some usr⟩)) := by
  refine ⟨?_, ?_, ?_⟩
  · cases hat : r.body.accessToken with
    | none => simp [login, h, hat]
    | some tok =>
      cases hu : r.body.user with
      | none => simp [login, h, hat, hu]
      | some urec =>
        cases hi : TinybeansUser.init urec with
        | error e => simp [login, h, hat, hu, hi]
        | ok usr => simp [login, h, hat, hu, hi]
  · intro hat
    constructor <;> simp [login, h, hat]
  · intro tok hat
    refine ⟨?_, fun hu => ?_, fun urec usr hu hi => ?_⟩
    · cases hu : r.body.user with
      | none => simp [login, h, hat, hu]
      | some urec =>
        cases hi : TinybeansUser.init urec with
        | error e => simp [login, h, hat, hu, hi]
        | ok usr => simp [login, h, hat, hu, hi]
    · simp [login, h, hat, hu]
    · simp [login, h, hat, hu, hi]

/-- Witness for `claim_C6_login_failure_amended`: the fresh client against
`status401Response` — one request, token stored and the call accepted even
though the status is 401. -/
theorem claim_C6_login_failure_amended_witness :
    initState.logged_in = false ∧
    (login initState status401Response).requests = 1 ∧
    (login initState status401Response).result = Except.ok () :=
  ⟨rfl,
    (claim_C6_login_failure_amended initState status401Response rfl).1,
    (((claim_C6_login_failure_amended initState status401Response rfl).2.2
        "tok" rfl).2.2
      ⟨some 1, some "a@b", some "A", some "B", some "ab"⟩
      ⟨1, "a@b", "A", "B", "ab"⟩ rfl (by decide)).1⟩

/-- The early-return branch of `login`: an already-authenticated client is
left untouched. -/
theorem login_noop_of_logged_in (s : ClientState) (r : AuthResponse)
    (h : s.logged_in = true) : login s r = ⟨0, s, Except.ok ()⟩ := by
  simp [login, h]

/-- C8: `login` on a client already holding a (non-empty) access token
issues no authenticate request and leaves the whole state unchanged; hence
two successive logins from a fresh client whose first response carries an
access token issue exactly one authenticate request in total. -/
theorem claim_C8_login_idempotent_when_authenticated (s : ClientState)
    (r r1 r2 : AuthResponse) (tok : String) :
    (s.logged_in = true → login s r = ⟨0, s, Except.ok ()⟩) ∧
    (r1.body.accessToken = some tok → tok ≠ "" →
      (login initState r1).requests +
        (login (login initState r1).state r2).requests = 1) := by
  constructor
  · intro h
    exact login_noop_of_logged_in s r h
  · intro hat htok
    have h1 : (login initState r1).requests = 1 ∧
        (login initState r1).state.access_token = some tok := by
      cases hu : r1.body.user with
      | none => simp [login, initState, ClientState.logged_in, hat, hu]
      | some urec =>
        cases hi : TinybeansUser.init urec with
        | error e => simp [login, initState, ClientState.logged_in, hat, hu, hi]
        | ok usr => simp [login, initState, ClientState.logged_in, hat, hu, hi]
    have hl : (login initState r1).state.logged_in = true := by
      unfold ClientState.logged_in
      rw [h1.2]
      simpa using htok
    have h2 : (login (login initState r1).state r2).requests = 0 := by
      rw [login_noop_of_logged_in _ r2 hl]
    rw [h1.1, h2]

/-- Witness for `claim_C8_login_idempotent_when_authenticated`: a client
holding the token "tok" is not touched again, and from a fresh client two
logins against `status401Response` issue one request. -/
theorem claim_C8_login_idempotent_when_authenticated_witness :
    (⟨some "tok", none⟩ : ClientState).logged_in = true ∧
    login ⟨some "tok", none⟩ status401Response =
      ⟨0, ⟨some "tok", none⟩, Except.ok ()⟩ ∧
    (login initState status401Response).requests +
      (login (login initState status401Response).state
        status401Response).requests = 1 :=
  ⟨rfl,
    (claim_C8_login_idempotent_when_authenticated ⟨some "tok", none⟩
      status401Response status401Response status401Response "tok").1 rfl,
    (claim_C8_login_idempotent_when_authenticated ⟨some "tok", none⟩
      status401Response status401Response status401Response "tok").2 rfl
      (by decide)⟩

/-- An entry record carrying every mandatory key, with the four optional
parts (`latitude`/`longitude`, `emotions`, `comments`) left free. -/
def mkEntryRecord (i : Nat) (u : String) (d : Bool) (att : Option String)
    (vu ty : String) (lat lon : Option Int) (c b : String)
    (em : Option (List EmotionRecord)) (co : Option (List CommentRecord))
    (ts : Option Int) : EntryRecord :=
  ⟨some i, some u, some d, att, some vu, some ty, lat, lon, some c, some b,
   em, co, ts⟩

/-- C10: constructing a `TinybeanEntry` from a record that omits
latitude/longitude, the emotions list or the comments list succeeds;
latitude and longitude default to `none` whenever either key is absent, an
absent emotions list yields `[]` and an absent comments list yields `[]`,
each of the three recoveries independent of the other optional fields. -/
theorem claim_C10_optional_fields_default (i : Nat) (u vu ty c b : String)
    (att : Option String) (d : Bool) (lat lon : Option Int)
    (em : Option (List EmotionRecord)) (co : Option (List CommentRecord))
    (ts : Option Int) :
    (∃ e, TinybeanEntry.init
        (mkEntryRecord i u d att vu ty lat lon c b em co ts) =
      Except.ok e) ∧
    (∀ e, TinybeanEntry.init
        (mkEntryRecord i u d att vu ty lat lon c b em co ts) =
          Except.ok e →
      ((lat = none ∨ lon = none) →
        e.latitude = none ∧ e.longitude = none) ∧
      (∀ la lo, lat = some la → lon = some lo →
        e.latitude = some la ∧ e.longitude = some lo) ∧
      (em = none → e.emotions = []) ∧
      (co = none → e.comments = [])) := by
  have hinit : TinybeanEntry.init
      (mkEntryRecord i u d att vu ty lat lon c b em co ts) =
    Except.ok
      ⟨i, u, d,
       if att = some "VIDEO" then "VIDEO" else ty,
       if att = some "VIDEO" then some vu else none,
       (match lat, lon with
        | some la, some lo => (some la, some lo)
        | _, _ => (none, none)).1,
       (match lat, lon with
        | some la, some lo => (some la, some lo)
        | _, _ => (none, none)).2,
       c, b,
       (match em with
        | none => []
        | some rs => appendUntilKeyError TinybeanEmotion.init rs),
       (match co with
        | none => []
        | some rs => appendUntilKeyError TinybeanComment.init rs)⟩ := by
    by_cases hv : att = some "VIDEO" <;>
      simp [TinybeanEntry.init, mkEntryRecord, getKey, hv] <;> rfl
  refine ⟨⟨_, hinit⟩, fun e he => ?_⟩
  rw [hinit] at he
  obtain rfl : _ = e := by injection he
  refine ⟨fun h => ?_, fun la lo hla hlo => ?_, fun h => ?_, fun h => ?_⟩
  · rcases h with h | h
    · subst h
      exact ⟨rfl, rfl⟩
    · subst h
      cases lat <;> exact ⟨rfl, rfl⟩
  · subst hla; subst hlo; exact ⟨rfl, rfl⟩
  · subst h; exact rfl
  · subst h; exact rfl

/-- Witness for `claim_C10_optional_fields_default`: a record omitting all
four optional parts. -/
theorem claim_C10_optional_fields_default_witness :
    TinybeanEntry.init
        (mkEntryRecord 1 "u" false none "vu" "TEXT" none none "c" "b"
          none none none) =
      Except.ok ⟨1, "u", false, "TEXT", none, none, none, "c", "b", [], []⟩ ∧
    (∀ e, TinybeanEntry.init
        (mkEntryRecord 1 "u" false none "vu" "TEXT" none none "c" "b"
          none none none) = Except.ok e →
      e.latitude = none ∧ e.emotions = [] ∧ e.comments = []) :=
  ⟨by decide, fun e he =>
    ⟨(((claim_C10_optional_fields_default 1 "u" "vu" "TEXT" "c" "b" none
        false none none none none none).2 e he).1 (Or.inl rfl)).1,
     (((claim_C10_optional_fields_default 1 "u" "vu" "TEXT" "c" "b" none
        false none none none none none).2 e he).2.2.1 rfl),
     (((claim_C10_optional_fields_default 1 "u" "vu" "TEXT" "c" "b" none
        false none none none none none).2 e he).2.2.2 rfl)⟩⟩
